import Mathlib

/-!
Shallow embedding of the CSI acquisition core of
`src/api/route.py` (WiFiVision-Counting-Tools).

Modelling conventions:
* Python `str` values are Lean `String`s; character-level helpers
  (`pySplit`, `hasMarker`, `stripMarker`, `charTrim`) reproduce the exact
  semantics of `str.split(",")`, `str.startswith("CSI_DATA,")`,
  slicing `[9:]` and whitespace stripping on code-point lists.
* The file system is a map from paths to lists of CSV rows (`FS`);
  `open(path, "w")` followed by the header write is modelled by
  `FS.set fs path [CSI_HEADERS]` (write-mode truncation), and
  `csv_writer.writerow` + `flush` by `FS.append`.
* `float(s)` is modelled by `pyFloat?`, which parses the decimal-literal
  grammar (optional sign, digits, optional fractional part, optional
  exponent, surrounding whitespace) into an exact decimal fraction
  `PyFloat` (numerator and a power-of-ten denominator).  The non-finite
  forms `inf`/`nan` and digit-group underscores accepted by CPython have
  no exact rational value and are outside the modelled grammar; the
  device protocol only ever sends plain decimal RSSI values.
* Nondeterministic environment effects (whether the CSV `open` raises,
  which serial ports a discovery pass would connect, whether the camera
  delivers a priming frame, the host clock) are explicit parameters.
* Threads spawned by the code (serial listeners, the video capture loop,
  the optional auto-stop timer) are not stepped here; the claims under
  study are about the synchronous start/stop/ingest paths.  The endpoint
  always calls `CSICollector.start` with `duration=None`, so the
  timer branch is never armed on the modelled path.
-/

/-- One CSV row, as written by `csv.writer.writerow`. -/
abbrev Row := List String

/-- File-system model: association list from path to file content
(list of CSV rows); later entries are shadowed by earlier ones. -/
structure FS where
  files : List (String × List Row)
deriving DecidableEq

def lookupRows : List (String × List Row) → String → List Row
  | [], _ => []
  | (q, v) :: rest, p => if q = p then v else lookupRows rest p

def hasPath : List (String × List Row) → String → Bool
  | [], _ => false
  | (q, _) :: rest, p => if q = p then true else hasPath rest p

/-- Content of the file at `p` (empty if absent). -/
def FS.get (fs : FS) (p : String) : List Row :=
  lookupRows fs.files p

/-- Models `open(p, "w")`: truncation plus subsequent writes: replace the content
of `p` wholesale. -/
def FS.set (fs : FS) (p : String) (v : List Row) : FS :=
  ⟨(p, v) :: fs.files⟩

/-- Models `csv_writer.writerow(r)` + `flush` on the open handle for `p`. -/
def FS.append (fs : FS) (p : String) (r : Row) : FS :=
  fs.set p (fs.get p ++ [r])

/-- Models `os.path.exists(p)` restricted to files this model writes. -/
def FS.pathExists (fs : FS) (p : String) : Bool :=
  hasPath fs.files p

/-! ### Python string primitives (character-level, code-point exact) -/

/-- Python `str.split(",")`: accumulator-based splitter over code points.
Mirrors Python exactly, e.g. `"".split(",") == [""]` and
`"a,,b".split(",") == ["a","","b"]`. -/
def splitCommaChars : List Char → List Char → List (List Char)
  | [], acc => [acc.reverse]
  | c :: cs, acc =>
    if c = ',' then acc.reverse :: splitCommaChars cs []
    else splitCommaChars cs (c :: acc)

def pySplit (s : String) : List String :=
  (splitCommaChars s.toList []).map (fun l => String.mk l)

/-- Python `csi_data.startswith("CSI_DATA,")` (route.py line 376). -/
def hasMarker (s : String) : Bool :=
  List.isPrefixOf "CSI_DATA,".toList s.toList

/-- Python `csi_data[9:]` — drop the 9-character marker (route.py line 377). -/
def stripMarker (s : String) : String :=
  String.mk (s.toList.drop 9)

/-! ### `float()` on decimal literals -/

/-- ASCII whitespace stripped by Python around a float literal. -/
def isPySpace (c : Char) : Bool :=
  c = ' ' ∨ c = '\t' ∨ c = '\n' ∨ c = '\r' ∨ c = '\x0b' ∨ c = '\x0c'

def charTrim (cs : List Char) : List Char :=
  ((cs.dropWhile isPySpace).reverse.dropWhile isPySpace).reverse

def takeDigits : List Char → List Char × List Char
  | [] => ([], [])
  | c :: cs =>
    if c.isDigit then
      let r := takeDigits cs
      (c :: r.1, r.2)
    else ([], c :: cs)

def digitsToNat (ds : List Char) : Nat :=
  ds.foldl (fun a c => a * 10 + (c.toNat - 48)) 0

/-- The value `float()` returns, kept as an exact decimal fraction
`num / den` with `den` a power of ten. -/
structure PyFloat where
  num : Int
  den : Nat
deriving DecidableEq

/-- Parse the optional exponent suffix; `some 0` on empty input,
`none` if any characters are left over. -/
def parseExpTail : List Char → Option Int
  | [] => some 0
  | c :: rest =>
    if c = 'e' ∨ c = 'E' then
      let sr : Int × List Char :=
        match rest with
        | '+' :: r => (1, r)
        | '-' :: r => (-1, r)
        | r => (1, r)
      let dr := takeDigits sr.2
      if dr.1 = [] ∨ dr.2 ≠ [] then none
      else some (sr.1 * (digitsToNat dr.1 : Int))
    else none

def applyExp (v : PyFloat) (e : Int) : PyFloat :=
  if 0 ≤ e then ⟨v.num * ((10 : Nat) ^ e.toNat : Nat), v.den⟩
  else ⟨v.num, v.den * (10 : Nat) ^ (-e).toNat⟩

def pyFloatChars (cs : List Char) : Option PyFloat :=
  let sc : Int × List Char :=
    match cs with
    | '+' :: r => (1, r)
    | '-' :: r => (-1, r)
    | r => (1, r)
  let ir := takeDigits sc.2
  match ir.2 with
  | '.' :: rest2 =>
    let fr := takeDigits rest2
    if ir.1 = [] ∧ fr.1 = [] then none
    else
      match parseExpTail fr.2 with
      | none => none
      | some e =>
        applyExp
          ⟨sc.1 * ((digitsToNat ir.1 * 10 ^ fr.1.length + digitsToNat fr.1 : Nat) : Int),
           10 ^ fr.1.length⟩ e
  | rest =>
    if ir.1 = [] then none
    else
      match parseExpTail rest with
      | none => none
      | some e => applyExp ⟨sc.1 * (digitsToNat ir.1 : Int), 1⟩ e

/-- Models `float(s)`: `some` iff CPython would return a finite value written as a
decimal literal; `none` models the `ValueError` raised otherwise. -/
def pyFloat? (s : String) : Option PyFloat :=
  pyFloatChars (charTrim s.toList)

/-! ### Constants from route.py -/

/-- Models `DATA_DIR` (route.py line 38); the absolute host prefix is abstracted. -/
def DATA_DIR : String := "data"

def CSI_DIR : String := DATA_DIR ++ "/csi"

def CHART_DIR : String := DATA_DIR ++ "/chart"

def VIDEO_DIR : String := DATA_DIR ++ "/video"

def IMAGE_DIR : String := DATA_DIR ++ "/images"

/-- The fixed 25-column header written by `CSICollector.start`
(route.py lines 340-346). -/
def CSI_HEADERS : List String :=
  ["timestamp", "id", "mac", "rssi", "rate", "sig_mode", "mcs",
   "bandwidth", "smoothing", "not_sounding", "aggregation",
   "stbc", "fec_coding", "sgi", "noise_floor", "ampdu_cnt",
   "channel", "secondary_channel", "local_timestamp", "ant",
   "sig_len", "rx_state", "len", "first_word", "data"]

/-! ### ESP32SerialHandler (route.py lines 50-159) -/

/-- State of the global `ESP32SerialHandler`.  `serial_connections` holds
the port names of the open `serial.Serial` handles (dict key order);
`serial_listening` the ports whose listener flag is `True`.
`auto_connect_calls` is a ghost observation counting invocations of
`auto_connect`, used to state reconnect-attempt properties. -/
structure HandlerState where
  serial_available : Bool
  serial_connections : List String
  serial_listening : List String
  auto_connect_calls : Nat
deriving DecidableEq

/-- Models `auto_connect` (route.py lines 61-104): scans ports and opens every
matching one; `discovered` is the environment's answer — the ports that
match the heuristics and open successfully on this pass.  Ports already
connected keep their dict slot (reopened in place); new ones are
appended.  When the `serial` module is unavailable the body raises and
the outer `except` swallows it, so nothing changes. -/
def ESP32SerialHandler.auto_connect (h : HandlerState) (discovered : List String) :
    HandlerState :=
  if h.serial_available then
    { h with
      serial_connections :=
        h.serial_connections ++
          discovered.filter (fun p => ¬ h.serial_connections.contains p),
      auto_connect_calls := h.auto_connect_calls + 1 }
  else
    { h with auto_connect_calls := h.auto_connect_calls + 1 }

/-- Models `send_command` (route.py lines 106-121): true iff at least one open
device accepted the write; `failing` is the set of ports whose write
raises on this call. -/
def ESP32SerialHandler.send_command (h : HandlerState) (failing : List String) : Bool :=
  if ¬ h.serial_available ∨ h.serial_connections = [] then false
  else h.serial_connections.any (fun p => ¬ failing.contains p)

/-- Models `is_connected` (route.py lines 123-125). -/
def ESP32SerialHandler.is_connected (h : HandlerState) : Bool :=
  h.serial_available && ¬ h.serial_connections.isEmpty

/-- Models `get_connected_devices` (route.py lines 158-159). -/
def ESP32SerialHandler.get_connected_devices (h : HandlerState) : List String :=
  h.serial_connections

/-- Models `start_serial_listening` (route.py lines 127-151): sets every
per-port listening flag and spawns one reader thread per port (threads
not stepped here); returns `len(serial_connections) > 0`. -/
def ESP32SerialHandler.start_serial_listening (h : HandlerState) :
    HandlerState × Bool :=
  ({ h with serial_listening := h.serial_connections },
   0 < h.serial_connections.length)

/-- Models `stop_listening` (route.py lines 153-156). -/
def ESP32SerialHandler.stop_listening (h : HandlerState) : HandlerState :=
  { h with serial_listening := [] }

/-! ### CSICollector (route.py lines 294-450) -/

/-- Fields of the `CSICollector` instance.  `writer` is `some path` when
`csv_writer`/`csv_handle` hold an open writer onto `path`, `none` when
they are `None`. -/
structure CSIState where
  active : Bool
  writer : Option String
  csv_file : Option String
  packet_count : Nat
  start_time : Option Nat
  latest_rssi : Option PyFloat
deriving DecidableEq

/-- Models `CSICollector.__init__` (route.py lines 295-302). -/
def CSICollector.init : CSIState :=
  { active := false, writer := none, csv_file := none,
    packet_count := 0, start_time := none, latest_rssi := none }

/-- Result of one `add_data` call: the file system and collector after
the call, plus the returned boolean. -/
structure AddResult where
  fs : FS
  st : CSIState
  accepted : Bool
deriving DecidableEq

/-- Models `CSICollector.add_data` (route.py lines 368-406).  Rejects when
inactive or no writer is open, or when the marker is missing; otherwise
strips the marker, splits on commas, prepends the timestamp, updates
`latest_rssi` from `row[3]` when that field exists, is non-empty and
parses (a parse failure is swallowed and the previous value kept),
writes the row, flushes, and bumps `packet_count`.  The timestamp
`datetime.now().isoformat()` is passed in as `timestamp`. -/
def CSICollector.add_data (fs : FS) (st : CSIState) (timestamp line : String) :
    AddResult :=
  match st.writer with
  | none => ⟨fs, st, false⟩
  | some path =>
    if st.active then
      if hasMarker line then
        let row : Row := timestamp :: pySplit (stripMarker line)
        let latest : Option PyFloat :=
          if h : 3 < row.length then
            let rssi_field := row.get ⟨3, h⟩
            if rssi_field = "" then st.latest_rssi
            else
              match pyFloat? rssi_field with
              | some v => some v
              | none => st.latest_rssi
          else st.latest_rssi
        ⟨fs.append path row,
         { st with latest_rssi := latest, packet_count := st.packet_count + 1 },
         true⟩
      else ⟨fs, st, false⟩
    else ⟨fs, st, false⟩

/-- Environment inputs consumed by one `CSICollector.start` call. -/
structure StartEnv where
  openOk : Bool
  discovered : List String
  sendFailing : List String
  now : Nat
deriving DecidableEq

/-- Result of `CSICollector.start`: new file system, collector and
handler, the global `collection_active` flag, whether the call raised
(the CSV `open` failing is the only raise point — every serial-side
exception is caught locally), and the returned boolean when it did not. -/
structure CollStart where
  fs : FS
  st : CSIState
  handler : Option HandlerState
  collection_active : Bool
  raised : Bool
  ret : Bool
deriving DecidableEq

/-- Models `CSICollector.start` (route.py lines 304-366) as called by the
endpoint (`duration=None`, so the auto-stop timer branch is not armed).
Order follows the source: the collector fields and the global
`collection_active` flag are set first; then the start command is sent
(with one `auto_connect` attempt when not connected — best-effort, the
call proceeds even if the reconnect fails); only then is the CSV opened
in write mode and the header row written.  If the open raises, the flag
assignments and any reconnect persist and the exception propagates. -/
def CSICollector.start (fs : FS) (st : CSIState) (handler : Option HandlerState)
    (csv_file : String) (env : StartEnv) : CollStart :=
  let st1 := { st with
    csv_file := some csv_file, active := true,
    packet_count := 0, start_time := some env.now }
  let handler1 :=
    match handler with
    | none => none
    | some h =>
      if ESP32SerialHandler.is_connected h then some h
      else some (ESP32SerialHandler.auto_connect h env.discovered)
  if env.openOk then
    ⟨(fs.set csv_file [CSI_HEADERS]),
     { st1 with writer := some csv_file }, handler1, true, false, true⟩
  else
    ⟨fs, st1, handler1, true, true, false⟩

/-- Models `os.path.splitext(os.path.basename(p))[0]` for the chart file name
(route.py lines 459-460); leading-dot special cases of `splitext` do not
arise for the names this code produces. -/
def afterLastSlash (cs : List Char) : List Char :=
  (cs.reverse.takeWhile (fun c => c ≠ '/')).reverse

def dropLastExt (cs : List Char) : List Char :=
  if cs.contains '.' then
    ((cs.reverse.dropWhile (fun c => c ≠ '.')).drop 1).reverse
  else cs

def chartPathOf (csvPath : String) : String :=
  CHART_DIR ++ "/" ++ String.mk (dropLastExt (afterLastSlash csvPath.toList)) ++
    "_chart.png"

/-- The dict returned by `CSICollector.stop` when it was active. -/
structure CSIStopResult where
  packets : Nat
  duration : Nat
  csv_file : Option String
  chart_file : Option String
deriving DecidableEq

/-- Result of `CSICollector.stop`. -/
structure CollStop where
  fs : FS
  st : CSIState
  collection_active : Bool
  result : Option CSIStopResult
deriving DecidableEq

/-- Models `CSICollector.stop` (route.py lines 408-450).  A no-op returning
`None` when already inactive; otherwise clears both flags, sends the
stop command best-effort, closes the CSV handle, computes the elapsed
time and attempts chart generation (an external side effect that may
fail — `chartOk` is the environment's answer for whether it succeeds). -/
def CSICollector.stop (fs : FS) (st : CSIState) (collection_active : Bool)
    (now : Nat) (chartOk : Bool) : CollStop :=
  if st.active then
    let st1 := { st with active := false, writer := none }
    let elapsed :=
      match st.start_time with
      | some t0 => now - t0
      | none => 0
    let chart : Option String :=
      match st.csv_file with
      | some f =>
        if fs.pathExists f && decide (0 < st.packet_count) && chartOk then
          some (chartPathOf f)
        else none
      | none => none
    ⟨fs, st1, false, some ⟨st.packet_count, elapsed, st.csv_file, chart⟩⟩
  else ⟨fs, st, collection_active, none⟩

/-- Sequential ingestion of a list of (timestamp, line) pairs through
`add_data`; the third component counts the accepted calls. -/
def CSICollector.feedAll : FS → CSIState → List (String × String) → FS × CSIState × Nat
  | fs, st, [] => (fs, st, 0)
  | fs, st, (t, l) :: rest =>
    let r := CSICollector.add_data fs st t l
    let k := CSICollector.feedAll r.fs r.st rest
    (k.1, k.2.1, if r.accepted then k.2.2 + 1 else k.2.2)

/-! ### VideoRecorder (route.py lines 161-292) -/

/-- Fields of the `VideoRecorder` instance.  `cap = none` models
`self.cap is None`; `some true` an open capture handle; `some false` a
handle that was released but not cleared (the priming-frame failure path
releases without assigning `None`).  `out` is whether `self.out` holds a
writer. -/
structure RecorderState where
  recording : Bool
  cap : Option Bool
  out : Bool
  frame_count : Nat
  start_time : Option Nat
  output_path : Option String
  video_available : Bool
deriving DecidableEq

/-- Models `VideoRecorder.start_recording` (route.py lines 179-228).  Returns
`False` untouched when video is unavailable or already recording;
otherwise opens the capture handle, reads one priming frame (failing
fast — releasing the handle — when none arrives, `cameraOk = false`),
derives the output path from the distance label and a timestamp string,
creates the writer and marks recording. -/
def VideoRecorder.start_recording (st : RecorderState) (distance timestampStr : String)
    (cameraOk : Bool) (now : Nat) : RecorderState × Bool :=
  if ¬ st.video_available then (st, false)
  else if st.recording then (st, false)
  else
    let st1 := { st with cap := some true }
    if ¬ cameraOk then ({ st1 with cap := some false }, false)
    else
      let path := VIDEO_DIR ++ "/video_" ++ distance ++ "m_" ++ timestampStr ++ ".mp4"
      ({ st1 with
          output_path := some path, out := true, recording := true,
          frame_count := 0, start_time := some now }, true)

/-- The dict returned by `stop_recording` when it was recording. -/
structure VideoStopResult where
  video_path : Option String
  frame_count : Nat
  duration : Nat
  image_dir : String
deriving DecidableEq

/-- Models `VideoRecorder.stop_recording` (route.py lines 264-292).  A no-op
returning `None` when not recording; otherwise clears the flag, joins
the capture thread (bounded wait, not stepped here), releases and clears
both handles and returns path, frame count and elapsed duration. -/
def VideoRecorder.stop_recording (st : RecorderState) (now : Nat) :
    RecorderState × Option VideoStopResult :=
  if ¬ st.recording then (st, none)
  else
    let st1 := { st with recording := false, cap := none, out := false }
    let dur :=
      match st.start_time with
      | some t0 => now - t0
      | none => 0
    (st1, some ⟨st.output_path, st.frame_count, dur, IMAGE_DIR⟩)

/-! ### The start endpoint (route.py lines 748-849) -/

/-- The global module state the endpoint reads and writes. -/
structure SysState where
  collection_active : Bool
  csi_collector : CSIState
  esp32_serial_handler : Option HandlerState
  video_recorder : RecorderState
  fs : FS
deriving DecidableEq

/-- HTTP status code and message of the JSON response. -/
structure Resp where
  code : Nat
  message : String
deriving DecidableEq

def alreadyActiveMsg : String := "Collection already active"

def noDevicesMsg : String :=
  "No ESP32 devices connected. Please connect ESP32 and restart server."

def listenFailedMsg : String := "Failed to start ESP32 serial listening"

/-- Environment inputs consumed by one `start_collection` request. -/
structure Env where
  openOk : Bool
  discovered : List String
  sendFailing : List String
  cameraOk : Bool
  chartOk : Bool
  now : Nat
  nowStr : String
deriving DecidableEq

/-- Models `csv_file = os.path.join(CSI_DIR, f"csi_.." )` (route.py line 775):
the session CSV name is derived from the distance label only — the
timestamp computed on line 774 is not part of it. -/
def csiPathFor (distance : String) : String :=
  CSI_DIR ++ "/csi_" ++ distance ++ "m.csv"

/-- Models `start_collection` (route.py lines 748-849).  Rejects when a
collection is active or when no device is connected (without any
reconnect attempt); otherwise starts the collector (whose CSV `open` may
raise — the endpoint's `except` then resets only the global
`collection_active` flag), sends the serial-mode and listen commands
(best-effort, no modelled state change), starts video best-effort, and
spawns the serial listeners.  The unreachable defensive branches mirror
the source faithfully. -/
def start_collection (s : SysState) (distance : String) (env : Env) :
    SysState × Resp :=
  if s.collection_active then (s, ⟨400, alreadyActiveMsg⟩)
  else
    match s.esp32_serial_handler with
    | none => (s, ⟨400, noDevicesMsg⟩)
    | some h =>
      if (ESP32SerialHandler.get_connected_devices h).length = 0 then
        (s, ⟨400, noDevicesMsg⟩)
      else
        let csv_file := csiPathFor distance
        let c := CSICollector.start s.fs s.csi_collector (some h) csv_file
          ⟨env.openOk, env.discovered, env.sendFailing, env.now⟩
        if c.raised then
          -- the endpoint's `except` (line 845): only the global flag is reset
          ({ collection_active := false, csi_collector := c.st,
             esp32_serial_handler := c.handler,
             video_recorder := s.video_recorder, fs := c.fs },
           ⟨500, "exception"⟩)
        else if ¬ c.ret then
          ({ collection_active := c.collection_active, csi_collector := c.st,
             esp32_serial_handler := c.handler,
             video_recorder := s.video_recorder, fs := c.fs },
           ⟨500, "Failed to start collection"⟩)
        else
          let v := VideoRecorder.start_recording s.video_recorder distance
            env.nowStr env.cameraOk env.now
          match c.handler with
          | none =>
            -- would be an AttributeError caught by the endpoint's `except`
            ({ collection_active := false, csi_collector := c.st,
               esp32_serial_handler := none,
               video_recorder := v.1, fs := c.fs },
             ⟨500, "exception"⟩)
          | some hh =>
            let l := ESP32SerialHandler.start_serial_listening hh
            if ¬ l.2 then
              let sc := CSICollector.stop c.fs c.st c.collection_active env.now
                env.chartOk
              let vr :=
                if v.2 then VideoRecorder.stop_recording v.1 env.now
                else (v.1, none)
              ({ collection_active := sc.collection_active,
                 csi_collector := sc.st,
                 esp32_serial_handler := some l.1,
                 video_recorder := vr.1, fs := sc.fs },
               ⟨500, listenFailedMsg⟩)
            else
              ({ collection_active := c.collection_active,
                 csi_collector := c.st,
                 esp32_serial_handler := some l.1,
                 video_recorder := v.1, fs := c.fs },
               ⟨200, "success"⟩)

/-! ### Concrete fixtures used by witnesses and counterexamples -/

/-- An active collector with an open writer on "f.csv" and a previously
stored RSSI of -65. -/
def stActiveFx : CSIState :=
  { active := true, writer := some "f.csv", csv_file := some "f.csv",
    packet_count := 0, start_time := some 0, latest_rssi := some ⟨-65, 1⟩ }

/-- An inactive collector (fresh, never started). -/
def stIdleFx : CSIState := CSICollector.init

/-- A file system holding just the header row of "f.csv". -/
def fsFx : FS := ⟨[("f.csv", [CSI_HEADERS])]⟩

/-- A handler with one connected device. -/
def handlerOneFx : HandlerState :=
  { serial_available := true, serial_connections := ["COM3"],
    serial_listening := [], auto_connect_calls := 0 }

/-- A handler with zero connected devices. -/
def handlerNoDevFx : HandlerState :=
  { serial_available := true, serial_connections := [],
    serial_listening := [], auto_connect_calls := 0 }

/-- An idle video recorder. -/
def recorderIdleFx : RecorderState :=
  { recording := false, cap := none, out := false, frame_count := 0,
    start_time := none, output_path := none, video_available := true }

/-- A recorder in the middle of a recording. -/
def recorderBusyFx : RecorderState :=
  { recording := true, cap := some true, out := true, frame_count := 7,
    start_time := some 3, output_path := some "data/video/video_1m_x.mp4",
    video_available := true }

/-- Idle system with one connected device and an empty file system. -/
def sysIdleOneDevFx : SysState :=
  { collection_active := false, csi_collector := CSICollector.init,
    esp32_serial_handler := some handlerOneFx,
    video_recorder := recorderIdleFx, fs := ⟨[]⟩ }

/-- Idle system with a handler but zero connected devices. -/
def sysIdleNoDevFx : SysState :=
  { collection_active := false, csi_collector := CSICollector.init,
    esp32_serial_handler := some handlerNoDevFx,
    video_recorder := recorderIdleFx, fs := ⟨[]⟩ }

/-- A system with an active session in progress. -/
def sysActiveFx : SysState :=
  { collection_active := true, csi_collector := stActiveFx,
    esp32_serial_handler := some handlerOneFx,
    video_recorder := recorderBusyFx, fs := fsFx }

/-- Environment where the CSV open succeeds and the camera works. -/
def envOkFx : Env :=
  { openOk := true, discovered := [], sendFailing := [], cameraOk := true,
    chartOk := true, now := 100, nowStr := "20260101_000000" }

/-- Environment where the CSV open raises. -/
def envOpenFailFx : Env :=
  { openOk := false, discovered := [], sendFailing := [], cameraOk := true,
    chartOk := true, now := 100, nowStr := "20260101_000000" }

/-! ### Helper lemmas -/

theorem FS.get_set (fs : FS) (p : String) (v : List Row) :
    FS.get (FS.set fs p v) p = v := by
  simp [FS.get, FS.set, lookupRows]

theorem add_data_packet_count (fs : FS) (st : CSIState) (t l : String) :
    (CSICollector.add_data fs st t l).st.packet_count =
      st.packet_count +
        (if (CSICollector.add_data fs st t l).accepted then 1 else 0) := by
  unfold CSICollector.add_data
  cases st.writer with
  | none => simp
  | some p =>
    by_cases ha : st.active
    · by_cases hm : hasMarker l
      · simp [ha, hm]
      · simp [ha, hm]
    · simp [ha]

theorem feedAll_packet_count (inputs : List (String × String)) :
    ∀ fs st, (CSICollector.feedAll fs st inputs).2.1.packet_count =
      st.packet_count + (CSICollector.feedAll fs st inputs).2.2 := by
  induction inputs with
  | nil => intro fs st; simp [CSICollector.feedAll]
  | cons hd tl ih =>
    intro fs st
    obtain ⟨t, l⟩ := hd
    simp only [CSICollector.feedAll]
    rw [ih]
    rw [add_data_packet_count]
    by_cases hacc : (CSICollector.add_data fs st t l).accepted
    · simp [hacc]
      omega
    · simp [hacc]

theorem auto_connect_length (h : HandlerState) (d : List String) :
    h.serial_connections.length ≤
      (ESP32SerialHandler.auto_connect h d).serial_connections.length := by
  unfold ESP32SerialHandler.auto_connect
  by_cases hs : h.serial_available <;> simp [hs]

/-! ### Claim theorems -/

/-- Claim C1, counterexample: a marker line with only two fields (far
fewer than the 24 needed for the 25-column shape) is NOT rejected: fed to
an active collector it returns accepted and a 3-column row is written. -/
theorem C1_counterexample :
    (CSICollector.add_data fsFx stActiveFx "T" "CSI_DATA,1,2").accepted = true ∧
    FS.get (CSICollector.add_data fsFx stActiveFx "T" "CSI_DATA,1,2").fs "f.csv" =
      [CSI_HEADERS, ["T", "1", "2"]] ∧
    ¬ (("T" :: pySplit (stripMarker "CSI_DATA,1,2")).length = CSI_HEADERS.length) := by
  decide

/-- Claim C1 (amended): a line whose packet-start marker is missing is
rejected with no row written and no state change at all; the field count
is NOT validated — any marker line fed to an active collector with an
open writer is accepted and written in full, whatever its field count. -/
theorem C1_marker_checked_shape_not :
    (∀ fs st t line, hasMarker line = false →
        CSICollector.add_data fs st t line = ⟨fs, st, false⟩) ∧
    (∀ fs st t line p, st.writer = some p → st.active = true →
        hasMarker line = true →
        (CSICollector.add_data fs st t line).accepted = true ∧
        (CSICollector.add_data fs st t line).fs =
          FS.append fs p (t :: pySplit (stripMarker line))) := by
  constructor
  · intro fs st t line hm
    unfold CSICollector.add_data
    cases st.writer with
    | none => rfl
    | some p => simp [hm]
  · intro fs st t line p hw ha hm
    simp [CSICollector.add_data, hw, ha, hm]

/-- Witness for the amended C1 at concrete inputs: a marker-free line is
rejected unchanged; a short marker line is accepted and appended. -/
theorem C1_witness :
    hasMarker "hello world" = false ∧
    CSICollector.add_data fsFx stActiveFx "T" "hello world" = ⟨fsFx, stActiveFx, false⟩ ∧
    (CSICollector.add_data fsFx stActiveFx "T" "CSI_DATA,9,8").fs =
      FS.append fsFx "f.csv" ["T", "9", "8"] :=
  ⟨by decide,
   C1_marker_checked_shape_not.1 fsFx stActiveFx "T" "hello world" (by decide),
   (C1_marker_checked_shape_not.2 fsFx stActiveFx "T" "CSI_DATA,9,8" "f.csv"
      rfl rfl (by decide)).2⟩

/-- Claim C2, failing-input evaluation: starting from an idle system with
one connected device, when the CSV open raises, the endpoint returns the
500 error and its `except` handler resets only the global flag — the run
ends with `collection_active = false` but the collector still marked
`active = true` (no matching rollback), contradicting the claimed
invariant.  (Camera-open failure, the claim's other example, does not even
fail the start: video is best-effort.) -/
theorem C2_open_failure_leaves_collector_active :
    (start_collection sysIdleOneDevFx "1" envOpenFailFx).2.code = 500 ∧
    (start_collection sysIdleOneDevFx "1" envOpenFailFx).1.collection_active = false ∧
    (start_collection sysIdleOneDevFx "1" envOpenFailFx).1.csi_collector.active = true := by
  decide

/-- Claim C3, counterexample: a start request with zero connected devices
is rejected immediately — the whole system state (including the ghost
reconnect counter, still 0, not 1) is unchanged and the no-device message
is returned without any reconnect attempt. -/
theorem C3_counterexample :
    start_collection sysIdleNoDevFx "1" envOkFx = (sysIdleNoDevFx, ⟨400, noDevicesMsg⟩) ∧
    handlerNoDevFx.auto_connect_calls = 0 := by
  decide

/-- Claim C3 (amended): a start request issued while zero devices are
connected (no handler object, or an empty connection table) is rejected
immediately with the no-device message and performs no reconnect attempt:
the state, including the handler and its ghost reconnect counter, is
returned unchanged. -/
theorem C3_amended_reject_without_reconnect (s : SysState) (d : String) (env : Env)
    (hact : s.collection_active = false)
    (hdev : s.esp32_serial_handler = none ∨
      ∃ h, s.esp32_serial_handler = some h ∧ h.serial_connections = []) :
    start_collection s d env = (s, ⟨400, noDevicesMsg⟩) := by
  unfold start_collection
  rcases hdev with hnone | ⟨h, hsome, hconn⟩
  · simp [hact, hnone]
  · simp [hact, hsome, ESP32SerialHandler.get_connected_devices, hconn]

/-- Witness for the amended C3 at the concrete no-device system. -/
theorem C3_witness :
    start_collection sysIdleNoDevFx "2" envOkFx = (sysIdleNoDevFx, ⟨400, noDevicesMsg⟩) :=
  C3_amended_reject_without_reconnect sysIdleNoDevFx "2" envOkFx rfl
    (Or.inr ⟨handlerNoDevFx, rfl, rfl⟩)

/-- Claim C4: a valid packet line (marker plus 24 comma-separated fields)
fed to an active collector with an open writer is accepted and appends
exactly one row — the timestamp prepended to the comma-split of the
marker-stripped line — whose column count equals the length of the
declared 25-column header. -/
theorem C4_valid_line_one_full_row (fs : FS) (st : CSIState) (t line p : String)
    (hw : st.writer = some p) (ha : st.active = true)
    (hm : hasMarker line = true)
    (hn : (pySplit (stripMarker line)).length = 24) :
    (CSICollector.add_data fs st t line).accepted = true ∧
    (CSICollector.add_data fs st t line).fs =
      FS.append fs p (t :: pySplit (stripMarker line)) ∧
    (t :: pySplit (stripMarker line)).length = CSI_HEADERS.length := by
  refine ⟨?_, ?_, ?_⟩
  · simp [CSICollector.add_data, hw, ha, hm]
  · simp [CSICollector.add_data, hw, ha, hm]
  · rw [List.length_cons, hn]
    decide

/-- Witness for C4: a concrete 24-field packet line is accepted and
written as one 25-column row. -/
theorem C4_witness :
    (pySplit (stripMarker "CSI_DATA,1,aa:bb:cc:dd:ee:ff,-65,11,1,4,0,1,1,1,0,0,0,-92,0,6,1,2242720,0,128,0,128,1,[94 92 6 2]")).length = 24 ∧
    (CSICollector.add_data fsFx stActiveFx "T" "CSI_DATA,1,aa:bb:cc:dd:ee:ff,-65,11,1,4,0,1,1,1,0,0,0,-92,0,6,1,2242720,0,128,0,128,1,[94 92 6 2]").accepted = true ∧
    ("T" :: pySplit (stripMarker "CSI_DATA,1,aa:bb:cc:dd:ee:ff,-65,11,1,4,0,1,1,1,0,0,0,-92,0,6,1,2242720,0,128,0,128,1,[94 92 6 2]")).length = CSI_HEADERS.length :=
  ⟨by decide,
   (C4_valid_line_one_full_row fsFx stActiveFx "T" _ "f.csv" rfl rfl (by decide) (by decide)).1,
   (C4_valid_line_one_full_row fsFx stActiveFx "T" _ "f.csv" rfl rfl (by decide) (by decide)).2.2⟩

/-- Claim C5: the packet counter counts accepted `add_data` calls exactly
— after any sequence of calls the counter has grown by precisely the
number of accepted calls (no double counts, no drops); and on the
spec scenario (a session started fresh, then the two given lines) the
collector reports `packet_count = 2` with latest signal strength -70. -/
theorem C5_packet_count_exact :
    (∀ inputs fs st,
      (CSICollector.feedAll fs st inputs).2.1.packet_count =
        st.packet_count + (CSICollector.feedAll fs st inputs).2.2) ∧
    ((CSICollector.feedAll
        (CSICollector.start ⟨[]⟩ CSICollector.init (some handlerOneFx)
          "data/csi/csi_1m.csv" ⟨true, [], [], 7⟩).fs
        (CSICollector.start ⟨[]⟩ CSICollector.init (some handlerOneFx)
          "data/csi/csi_1m.csv" ⟨true, [], [], 7⟩).st
        [("T1", "CSI_DATA,1,aa:bb:cc:dd:ee:ff,-65,11,1,4,..."),
         ("T2", "CSI_DATA,2,aa:bb:cc:dd:ee:ff,-70,11,1,4,...")]).2.1.packet_count = 2 ∧
     (CSICollector.feedAll
        (CSICollector.start ⟨[]⟩ CSICollector.init (some handlerOneFx)
          "data/csi/csi_1m.csv" ⟨true, [], [], 7⟩).fs
        (CSICollector.start ⟨[]⟩ CSICollector.init (some handlerOneFx)
          "data/csi/csi_1m.csv" ⟨true, [], [], 7⟩).st
        [("T1", "CSI_DATA,1,aa:bb:cc:dd:ee:ff,-65,11,1,4,..."),
         ("T2", "CSI_DATA,2,aa:bb:cc:dd:ee:ff,-70,11,1,4,...")]).2.1.latest_rssi =
       some ⟨-70, 1⟩) :=
  ⟨fun inputs fs st => feedAll_packet_count inputs fs st, by decide, by decide⟩

/-- Claim C6: when an accepted marker line has a signal-strength field
(the fixed ordinal position: index 3 of the written row, i.e. index 2 of
the comma-split fields) that is non-empty but fails to parse as a number,
the parse failure is swallowed: the previous `latest_rssi` is kept
unchanged and the full raw record is still written. -/
theorem C6_parse_failure_swallowed (fs : FS) (st : CSIState) (t line p : String)
    (hw : st.writer = some p) (ha : st.active = true)
    (hm : hasMarker line = true)
    (h3 : 2 < (pySplit (stripMarker line)).length)
    (hne : (pySplit (stripMarker line)).get ⟨2, h3⟩ ≠ "")
    (hpf : pyFloat? ((pySplit (stripMarker line)).get ⟨2, h3⟩) = none) :
    (CSICollector.add_data fs st t line).accepted = true ∧
    (CSICollector.add_data fs st t line).st.latest_rssi = st.latest_rssi ∧
    (CSICollector.add_data fs st t line).fs =
      FS.append fs p (t :: pySplit (stripMarker line)) := by
  simp only [List.get_eq_getElem] at hne hpf
  refine ⟨?_, ?_, ?_⟩ <;>
    simp [CSICollector.add_data, hw, ha, hm, hne, hpf, h3]

/-- Witness for C6: the line carries "xx" in the RSSI position, which
fails to parse; the previous value -65 is retained and the row is still
appended. -/
theorem C6_witness :
    pyFloat? "xx" = none ∧
    (CSICollector.add_data fsFx stActiveFx "T" "CSI_DATA,1,aa:bb,xx,0").accepted = true ∧
    (CSICollector.add_data fsFx stActiveFx "T" "CSI_DATA,1,aa:bb,xx,0").st.latest_rssi =
      some ⟨-65, 1⟩ ∧
    (CSICollector.add_data fsFx stActiveFx "T" "CSI_DATA,1,aa:bb,xx,0").fs =
      FS.append fsFx "f.csv" ["T", "1", "aa:bb", "xx", "0"] :=
  ⟨by decide,
   (C6_parse_failure_swallowed fsFx stActiveFx "T" "CSI_DATA,1,aa:bb,xx,0" "f.csv"
      rfl rfl (by decide) (by decide) (by decide) (by decide)).1,
   (C6_parse_failure_swallowed fsFx stActiveFx "T" "CSI_DATA,1,aa:bb,xx,0" "f.csv"
      rfl rfl (by decide) (by decide) (by decide) (by decide)).2.1,
   (C6_parse_failure_swallowed fsFx stActiveFx "T" "CSI_DATA,1,aa:bb,xx,0" "f.csv"
      rfl rfl (by decide) (by decide) (by decide) (by decide)).2.2⟩

/-- Claim C7: a start request made while a session is active is rejected
with the already-active message and has no side effects — the entire
system state (collector, handler, recorder and file system) is returned
untouched. -/
theorem C7_second_start_rejected (s : SysState) (d : String) (env : Env)
    (h : s.collection_active = true) :
    start_collection s d env = (s, ⟨400, alreadyActiveMsg⟩) := by
  unfold start_collection
  simp [h]

/-- Witness for C7 on a concrete active system. -/
theorem C7_witness :
    start_collection sysActiveFx "1" envOkFx = (sysActiveFx, ⟨400, alreadyActiveMsg⟩) :=
  C7_second_start_rejected sysActiveFx "1" envOkFx rfl

/-- Claim C8: stop is idempotent — `CSICollector.stop` on an inactive
collector is a no-op returning `None` with every component unchanged, and
`VideoRecorder.stop_recording` when not recording is likewise a no-op
returning `None`. -/
theorem C8_stop_idempotent :
    (∀ fs st g now chartOk, st.active = false →
      CSICollector.stop fs st g now chartOk = ⟨fs, st, g, none⟩) ∧
    (∀ r now, r.recording = false →
      VideoRecorder.stop_recording r now = (r, none)) := by
  constructor
  · intro fs st g now chartOk h
    unfold CSICollector.stop
    simp [h]
  · intro r now h
    unfold VideoRecorder.stop_recording
    simp [h]

/-- Witness for C8 on concrete inactive states (also the states reached
after a first stop, whose first action is to clear the respective flag). -/
theorem C8_witness :
    CSICollector.stop fsFx stIdleFx false 42 true = ⟨fsFx, stIdleFx, false, none⟩ ∧
    VideoRecorder.stop_recording recorderIdleFx 42 = (recorderIdleFx, none) :=
  ⟨C8_stop_idempotent.1 fsFx stIdleFx false 42 true rfl,
   C8_stop_idempotent.2 recorderIdleFx 42 rfl⟩

/-- Claim C10: calling `start_recording` while a recording is already
active returns `False` and leaves the recorder state — recording flag,
capture handle, writer, frame count, start time, output path — entirely
unchanged. -/
theorem C10_start_while_recording_noop (st : RecorderState) (d ts : String)
    (cameraOk : Bool) (now : Nat) (h : st.recording = true) :
    VideoRecorder.start_recording st d ts cameraOk now = (st, false) := by
  unfold VideoRecorder.start_recording
  by_cases hv : st.video_available
  · simp [hv, h]
  · simp [hv]

/-- Witness for C10 on a concrete busy recorder. -/
theorem C10_witness :
    VideoRecorder.start_recording recorderBusyFx "2" "ts" true 9 =
      (recorderBusyFx, false) :=
  C10_start_while_recording_noop recorderBusyFx "2" "ts" true 9 rfl

/-- Claim C9: `CSICollector.start` opens the session CSV in write mode,
so a successful open always leaves the file holding exactly the header
row — truncating whatever was there; and the controller derives the
session file name solely from the distance label (`csiPathFor`, no
timestamp), so any successful start for distance `d` — in particular a
second session with the same label — resets that same file to just the
header, silently discarding the previous session data. -/
theorem C9_fixed_name_truncates :
    (∀ fs st hd path senv, senv.openOk = true →
      FS.get (CSICollector.start fs st hd path senv).fs path = [CSI_HEADERS]) ∧
    (∀ s d env h, s.collection_active = false →
      s.esp32_serial_handler = some h →
      h.serial_connections ≠ [] →
      env.openOk = true →
      (start_collection s d env).2.code = 200 ∧
      FS.get (start_collection s d env).1.fs (csiPathFor d) = [CSI_HEADERS]) := by
  constructor
  · intro fs st hd path senv ho
    simp [CSICollector.start, ho, FS.get_set]
  · intro s d env h hact hh hc ho
    have hlen : (ESP32SerialHandler.get_connected_devices h).length ≠ 0 := by
      simpa [ESP32SerialHandler.get_connected_devices, List.length_eq_zero] using hc
    unfold start_collection
    by_cases hic : ESP32SerialHandler.is_connected h
    · simp [hact, hh, hlen, CSICollector.start, ho, hic, FS.get_set,
        ESP32SerialHandler.start_serial_listening, List.length_pos,
        List.isEmpty_iff, hc]
    · have hmono := auto_connect_length h env.discovered
      have hbase : 0 < h.serial_connections.length := List.length_pos.2 hc
      have hpos :
          0 < (ESP32SerialHandler.auto_connect h env.discovered).serial_connections.length := by
        omega
      simp [hact, hh, hlen, CSICollector.start, ho, hic, FS.get_set,
        ESP32SerialHandler.start_serial_listening, hpos]

/-- Witness for C9: a concrete collector start truncates to the header
row, and a concrete successful endpoint start for distance "1" leaves
`data/csi/csi_1m.csv` holding exactly the header. -/
theorem C9_witness :
    FS.get (CSICollector.start ⟨[("data/csi/csi_3m.csv", [CSI_HEADERS, ["T", "old"]])]⟩
        CSICollector.init (some handlerOneFx) "data/csi/csi_3m.csv"
        ⟨true, [], [], 5⟩).fs "data/csi/csi_3m.csv" = [CSI_HEADERS] ∧
    ((start_collection sysIdleOneDevFx "1" envOkFx).2.code = 200 ∧
      FS.get (start_collection sysIdleOneDevFx "1" envOkFx).1.fs (csiPathFor "1") =
        [CSI_HEADERS]) :=
  ⟨C9_fixed_name_truncates.1 ⟨[("data/csi/csi_3m.csv", [CSI_HEADERS, ["T", "old"]])]⟩
      CSICollector.init (some handlerOneFx) "data/csi/csi_3m.csv" ⟨true, [], [], 5⟩ rfl,
   C9_fixed_name_truncates.2 sysIdleOneDevFx "1" envOkFx handlerOneFx rfl rfl
      (by decide) rfl⟩
